import Mathlib

/-!
Verification of the `TimerWidget` core of rust-pushrod
(`src/widget/timer_widget.rs`) against its natural-language specification.

The embedding makes the ambient clock explicit: every source call to
`time_ms()` becomes a `Nat` argument (milliseconds since the epoch).
`tick` reads the clock twice in the source — once for the elapsed
computation and once for the anchor reset — so the Lean `tick` takes two
readings `n1` and `n2` in that order.  The side effects of a call
(rearming the anchor, invoking the boxed callback) are recorded as an
ordered list of `TimerEvent`s, mirroring the statement order of the
source.  The unsigned subtraction `time_ms() - self.initiated` panics on
underflow in Rust, so `tick` returns an `Option`: `none` models the
underflow panic.
-/

/-- Observable side effects of a timer operation, in the order the source
statements execute them. -/
inductive TimerEvent where
  | resetAnchor (t : Nat) : TimerEvent
  | invokeCallback : TimerEvent
deriving DecidableEq, Repr

/-- Modelled from the spec: `Configurable` (crate::widget::config) is a
key-value configuration store, unused functionally by the timer; its body
is not under src. -/
structure Configurable where
  store : List (String × String)
deriving DecidableEq, Repr

/-- Modelled from the spec: `Configurable::new()` constructs an empty
store. -/
def Configurable.new : Configurable := ⟨[]⟩

/-- Modelled from the spec: `Point` (crate::core::point) is the geometry
point type; its body is not under src. -/
structure Point where
  x : Int
  y : Int
deriving DecidableEq, Repr

/-- Modelled from the spec: the `Size` type from crate::core::point. -/
structure Size where
  w : Int
  h : Int
deriving DecidableEq, Repr

/-- Modelled from the spec: `make_origin_point()` returns the degenerate
origin (0,0). -/
def make_origin_point : Point := ⟨0, 0⟩

/-- Modelled from the spec: `make_unsized()` returns the degenerate size
(0,0). -/
def make_unsized : Size := ⟨0, 0⟩

/-- The `TimerWidget` struct.  The boxed callback `Box<Fn() -> ()>` is
kept abstract as a value of an arbitrary type `CB`: the timer stores and
replaces it but never inspects it, and its invocation is recorded as a
`TimerEvent`. -/
structure TimerWidget (CB : Type) where
  config : Configurable
  enabled : Bool
  initiated : Nat
  timeout : Nat
  timeout_function : CB
deriving DecidableEq, Repr

/-- `TimerWidget::new()`.  `noop` models the empty closure
`Box::new(|| { })` and `now` models the `time_ms()` reading taken during
construction. -/
def TimerWidget.new (CB : Type) (noop : CB) (now : Nat) : TimerWidget CB :=
  { config := Configurable.new
    enabled := true
    initiated := now
    timeout := 0
    timeout_function := noop }

/-- `TimerWidget::tick()`.  `n1` is the `time_ms()` reading used for the
elapsed computation, `n2` the reading used for the anchor reset in the
firing branch.  Returns `none` when the unsigned subtraction
`time_ms() - self.initiated` would underflow (a Rust panic), otherwise
the updated widget and the ordered list of side effects. -/
def TimerWidget.tick {CB : Type} (w : TimerWidget CB) (n1 n2 : Nat) :
    Option (TimerWidget CB × List TimerEvent) :=
  if !w.enabled then
    some (w, [])
  else if n1 < w.initiated then
    none
  else
    let elapsed := n1 - w.initiated
    if elapsed > w.timeout then
      some ({ w with initiated := n2 }, [.resetAnchor n2, .invokeCallback])
    else
      some (w, [])

/-- Whether a trace of side effects contains a callback invocation. -/
def firedIn (evs : List TimerEvent) : Bool :=
  evs.contains .invokeCallback

/-- A sequence of `tick` calls, each with its own pair of clock readings;
the traces are concatenated in order.  Used to state properties about
arbitrarily many ticks. -/
def TimerWidget.tickMany {CB : Type} :
    TimerWidget CB → List (Nat × Nat) → Option (TimerWidget CB × List TimerEvent)
  | w, [] => some (w, [])
  | w, p :: rest =>
    match w.tick p.1 p.2 with
    | none => none
    | some (w1, evs) =>
      match w1.tickMany rest with
      | none => none
      | some (w2, evs2) => some (w2, evs ++ evs2)

/-- `TimerWidget::set_enabled(enabled)`.  `now` models the `time_ms()`
reading in the body; the empty trace records that the body invokes no
callback. -/
def TimerWidget.set_enabled {CB : Type} (w : TimerWidget CB) (enabled : Bool)
    (now : Nat) : TimerWidget CB × List TimerEvent :=
  ({ w with enabled := enabled, initiated := now }, [])

/-- `TimerWidget::set_timeout(timeout)`. -/
def TimerWidget.set_timeout {CB : Type} (w : TimerWidget CB) (timeout : Nat) :
    TimerWidget CB × List TimerEvent :=
  ({ w with timeout := timeout }, [])

/-- `TimerWidget::on_timeout(timeout_function)`. -/
def TimerWidget.on_timeout {CB : Type} (w : TimerWidget CB) (f : CB) :
    TimerWidget CB × List TimerEvent :=
  ({ w with timeout_function := f }, [])

/-- `Widget::get_origin` for `TimerWidget`: returns `make_origin_point()`
regardless of state. -/
def TimerWidget.get_origin {CB : Type} (_w : TimerWidget CB) : Point :=
  make_origin_point

/-- `Widget::get_size` for `TimerWidget`: returns `make_unsized()`
regardless of state. -/
def TimerWidget.get_size {CB : Type} (_w : TimerWidget CB) : Size :=
  make_unsized

/-- `Widget::is_invalidated` for `TimerWidget`: always true. -/
def TimerWidget.is_invalidated {CB : Type} (_w : TimerWidget CB) : Bool :=
  true

/-- A concrete enabled widget used by the witness theorems. -/
def sampleW : TimerWidget Nat :=
  { config := Configurable.new
    enabled := true
    initiated := 3
    timeout := 2
    timeout_function := 7 }

/-- A concrete disabled widget used by the witness theorems. -/
def sampleWOff : TimerWidget Nat :=
  { config := Configurable.new
    enabled := false
    initiated := 3
    timeout := 2
    timeout_function := 7 }

example : sampleW.tick 10 11 =
    some ({ sampleW with initiated := 11 },
          [.resetAnchor 11, .invokeCallback]) := by decide

example : sampleW.tick 3 3 = some (sampleW, []) := by decide

example : sampleW.tick 1 1 = none := by decide

/-- C1: for every enabled Timer whose anchor is not in the future, `tick`
invokes the callback if and only if the elapsed time (the clock reading
minus the anchor) strictly exceeds the timeout; and a freshly constructed
Timer (default timeout 0) ticked at its construction instant does not
fire. -/
theorem claim_c1 (CB : Type) (noop : CB) (w : TimerWidget CB) (n1 n2 t : Nat)
    (he : w.enabled = true) (hn : w.initiated ≤ n1) :
    ((w.tick n1 n2).map (fun p => firedIn p.2) = some true
      ↔ w.timeout < n1 - w.initiated)
    ∧ ((TimerWidget.new CB noop t).tick t t).map (fun p => firedIn p.2)
      = some false := by
  have hlt : ¬ n1 < w.initiated := Nat.not_lt.mpr hn
  constructor
  · by_cases hf : w.timeout < n1 - w.initiated
    · simp [TimerWidget.tick, he, hlt, hf, firedIn]
    · simp [TimerWidget.tick, he, hlt, hf, firedIn]
  · simp [TimerWidget.new, TimerWidget.tick, firedIn]

theorem claim_c1_witness :
    sampleW.enabled = true ∧ sampleW.initiated ≤ 10 ∧
    (((sampleW.tick 10 11).map (fun p => firedIn p.2) = some true
        ↔ sampleW.timeout < 10 - sampleW.initiated)
      ∧ ((TimerWidget.new Nat 0 5).tick 5 5).map (fun p => firedIn p.2)
        = some false) :=
  ⟨rfl, by decide, claim_c1 Nat 0 sampleW 10 11 5 rfl (by decide)⟩

/-- C2: a disabled Timer is inert: any sequence of `tick` calls, at
arbitrary clock readings, returns the state entirely unchanged and
produces no side effects at all. -/
theorem claim_c2 (CB : Type) (w : TimerWidget CB) (ts : List (Nat × Nat))
    (hd : w.enabled = false) :
    w.tickMany ts = some (w, []) := by
  induction ts with
  | nil => rfl
  | cons p rest ih =>
    simp [TimerWidget.tickMany, TimerWidget.tick, hd, ih]

theorem claim_c2_witness :
    sampleWOff.enabled = false ∧
    sampleWOff.tickMany [(100, 100), (1000000, 1000000)] = some (sampleWOff, []) :=
  ⟨rfl, claim_c2 Nat sampleWOff [(100, 100), (1000000, 1000000)] rfl⟩

/-- C3: `set_enabled` stores its boolean argument in the enabled flag and
unconditionally resets the anchor to the clock reading, leaves the other
fields unchanged, and invokes no callback. -/
theorem claim_c3 (CB : Type) (w : TimerWidget CB) (e : Bool) (now : Nat) :
    (w.set_enabled e now).1.enabled = e
    ∧ (w.set_enabled e now).1.initiated = now
    ∧ (w.set_enabled e now).1.timeout = w.timeout
    ∧ (w.set_enabled e now).1.config = w.config
    ∧ (w.set_enabled e now).1.timeout_function = w.timeout_function
    ∧ firedIn (w.set_enabled e now).2 = false :=
  ⟨rfl, rfl, rfl, rfl, rfl, rfl⟩

/-- C4: `set_timeout` replaces only the timeout field, leaving the
anchor, the enabled flag, the callback and the configuration unchanged,
and invokes no callback. -/
theorem claim_c4 (CB : Type) (w : TimerWidget CB) (t : Nat) :
    (w.set_timeout t).1.timeout = t
    ∧ (w.set_timeout t).1.initiated = w.initiated
    ∧ (w.set_timeout t).1.enabled = w.enabled
    ∧ (w.set_timeout t).1.config = w.config
    ∧ (w.set_timeout t).1.timeout_function = w.timeout_function
    ∧ firedIn (w.set_timeout t).2 = false :=
  ⟨rfl, rfl, rfl, rfl, rfl, rfl⟩

/-- C5: for an enabled Timer whose elapsed time already strictly exceeds
a newly set smaller timeout, the very next `tick` after that
`set_timeout` call invokes the callback. -/
theorem claim_c5 (CB : Type) (w : TimerWidget CB) (tnew n1 n2 : Nat)
    (he : w.enabled = true) (hn : w.initiated ≤ n1)
    (_hsmall : tnew < w.timeout) (hover : tnew < n1 - w.initiated) :
    ((w.set_timeout tnew).1.tick n1 n2).map (fun p => firedIn p.2)
      = some true := by
  have hlt : ¬ n1 < w.initiated := Nat.not_lt.mpr hn
  simp [TimerWidget.set_timeout, TimerWidget.tick, he, hlt, hover, firedIn]

theorem claim_c5_witness :
    sampleW.enabled = true ∧ sampleW.initiated ≤ 6 ∧ 1 < sampleW.timeout
    ∧ 1 < 6 - sampleW.initiated
    ∧ ((sampleW.set_timeout 1).1.tick 6 7).map (fun p => firedIn p.2)
      = some true :=
  ⟨rfl, by decide, by decide, by decide,
    claim_c5 Nat sampleW 1 6 7 rfl (by decide) (by decide) (by decide)⟩

/-- C6: `new` always constructs a Timer with the enabled flag set, the
anchor equal to the construction-time clock reading, timeout zero, the
no-op callback, and a fresh configuration store; it is a total function,
so it cannot fail. -/
theorem claim_c6 (CB : Type) (noop : CB) (now : Nat) :
    (TimerWidget.new CB noop now).enabled = true
    ∧ (TimerWidget.new CB noop now).initiated = now
    ∧ (TimerWidget.new CB noop now).timeout = 0
    ∧ (TimerWidget.new CB noop now).timeout_function = noop
    ∧ (TimerWidget.new CB noop now).config = Configurable.new :=
  ⟨rfl, rfl, rfl, rfl, rfl⟩

/-- C7: in every firing `tick`, the anchor reset to the second clock
reading occurs at a strictly earlier position in the side-effect trace
than the callback invocation, and the state carried into the callback
already has the rearmed anchor. -/
theorem claim_c7 (CB : Type) (w w2 : TimerWidget CB) (n1 n2 : Nat)
    (evs : List TimerEvent)
    (h : w.tick n1 n2 = some (w2, evs)) (hf : firedIn evs = true) :
    ∃ i j : Nat, i < j
      ∧ evs[i]? = some (TimerEvent.resetAnchor n2)
      ∧ evs[j]? = some TimerEvent.invokeCallback
      ∧ w2.initiated = n2 := by
  unfold TimerWidget.tick at h
  by_cases he : w.enabled
  · by_cases hlt : n1 < w.initiated
    · simp [he, hlt] at h
    · by_cases hfir : w.timeout < n1 - w.initiated
      · simp [he, hlt, hfir] at h
        refine ⟨0, 1, by omega, ?_, ?_, ?_⟩ <;> simp [← h.1, ← h.2]
      · simp [he, hlt, hfir] at h
        rw [h.2] at hf
        simp [firedIn] at hf
  · simp [he] at h
    rw [h.2] at hf
    simp [firedIn] at hf

theorem claim_c7_witness :
    sampleW.tick 10 11
      = some ({ sampleW with initiated := 11 },
              [TimerEvent.resetAnchor 11, TimerEvent.invokeCallback])
    ∧ firedIn [TimerEvent.resetAnchor 11, TimerEvent.invokeCallback] = true
    ∧ ∃ i j : Nat, i < j
      ∧ [TimerEvent.resetAnchor 11, TimerEvent.invokeCallback][i]?
        = some (TimerEvent.resetAnchor 11)
      ∧ [TimerEvent.resetAnchor 11, TimerEvent.invokeCallback][j]?
        = some TimerEvent.invokeCallback
      ∧ ({ sampleW with initiated := 11 } : TimerWidget Nat).initiated = 11 :=
  ⟨by decide, by decide,
    claim_c7 Nat sampleW { sampleW with initiated := 11 } 10 11
      [TimerEvent.resetAnchor 11, TimerEvent.invokeCallback]
      (by decide) (by decide)⟩

/-- C8: for an enabled Timer, the elapsed-time subtraction in `tick`
never underflows when the clock reading is at least the anchor (the call
succeeds), and it does underflow (the call panics, modelled as `none`)
when the clock reading is strictly below the anchor. -/
theorem claim_c8 (CB : Type) (w : TimerWidget CB) (n1 n2 : Nat)
    (he : w.enabled = true) :
    (w.initiated ≤ n1 → (w.tick n1 n2).isSome = true)
    ∧ (n1 < w.initiated → w.tick n1 n2 = none) := by
  constructor
  · intro hn
    have hlt : ¬ n1 < w.initiated := Nat.not_lt.mpr hn
    by_cases hf : w.timeout < n1 - w.initiated
    · simp [TimerWidget.tick, he, hlt, hf]
    · simp [TimerWidget.tick, he, hlt, hf]
  · intro hlt
    simp [TimerWidget.tick, he, hlt]

theorem claim_c8_witness :
    sampleW.enabled = true
    ∧ ((sampleW.initiated ≤ 10 → (sampleW.tick 10 11).isSome = true)
      ∧ (10 < sampleW.initiated → sampleW.tick 10 11 = none)) :=
  ⟨rfl, claim_c8 Nat sampleW 10 11 rfl⟩

/-- C9: in every Timer state, `get_origin` returns the point (0,0) and
`get_size` returns the size (0,0). -/
theorem claim_c9 (CB : Type) (w : TimerWidget CB) :
    w.get_origin = Point.mk 0 0 ∧ w.get_size = Size.mk 0 0 :=
  ⟨rfl, rfl⟩

/-- C10: whether or not it fires, a successful `tick` can modify only the
anchor: the enabled flag, the timeout, the callback and the configuration
store come out unchanged. -/
theorem claim_c10 (CB : Type) (w w2 : TimerWidget CB) (n1 n2 : Nat)
    (evs : List TimerEvent)
    (h : w.tick n1 n2 = some (w2, evs)) :
    w2.enabled = w.enabled ∧ w2.timeout = w.timeout
    ∧ w2.timeout_function = w.timeout_function ∧ w2.config = w.config := by
  unfold TimerWidget.tick at h
  by_cases he : w.enabled
  · by_cases hlt : n1 < w.initiated
    · simp [he, hlt] at h
    · by_cases hfir : w.timeout < n1 - w.initiated
      · simp [he, hlt, hfir] at h
        rw [← h.1]
        exact ⟨he.symm, rfl, rfl, rfl⟩
      · simp [he, hlt, hfir] at h
        rw [h.1]
        exact ⟨rfl, rfl, rfl, rfl⟩
  · simp [he] at h
    rw [h.1]
    exact ⟨rfl, rfl, rfl, rfl⟩

theorem claim_c10_witness :
    sampleW.tick 10 11
      = some ({ sampleW with initiated := 11 },
              [TimerEvent.resetAnchor 11, TimerEvent.invokeCallback])
    ∧ (({ sampleW with initiated := 11 } : TimerWidget Nat).enabled = sampleW.enabled
      ∧ ({ sampleW with initiated := 11 } : TimerWidget Nat).timeout = sampleW.timeout
      ∧ ({ sampleW with initiated := 11 } : TimerWidget Nat).timeout_function
        = sampleW.timeout_function
      ∧ ({ sampleW with initiated := 11 } : TimerWidget Nat).config = sampleW.config) :=
  ⟨by decide,
    claim_c10 Nat sampleW { sampleW with initiated := 11 } 10 11
      [TimerEvent.resetAnchor 11, TimerEvent.invokeCallback] (by decide)⟩
